import Mathlib

/-!
Verification of the agent-lab-ui client against its specification.

The definitions below are a shallow embedding of the repository's source:

* `src/unnamed/part_001` (`App.tsx`): the WebSocket live-update channel
  (`reconnectWithBackoff`, `socket.onclose`, `socket.onmessage`,
  `subscribeToAgentUpdates`, `unsubscribeFromAgentUpdates`) and the
  in-memory agents collection (`handleCreateAgent`'s upsert,
  the `agent-status-update` handler).
* `src/README.md` (embedded `services/api.ts`): the `ApiService` class
  (`request`, `getAgents`, `getAgentById`, `startAgent`, `stopAgent`,
  `pauseAgent`, `resumeAgent`, `getAgentResults`).
* `src/unnamed/part_000` (`AgentDetails.tsx`): the component-level
  `fetchResults` handler.
* `src/src/components/CreateAgentForm.tsx`: `handleSubmit`.

JavaScript `||` defaulting on numbers and strings (where `0` and `""` are
falsy) is modelled explicitly by `jsNatOr` / `jsStringOr`; `undefined` /
missing JSON fields are modelled by `Option`; thrown exceptions by
`Except.error`.
-/

/-- Agent lifecycle status. The enum values come from the usage sites in
`src/unnamed/part_000` / `part_001` (`AgentStatus.PENDING`, `RUNNING`,
`COMPLETED`, `FAILED`, `PAUSED`, `STOPPED`, `IDLE`); the defining
`types.ts` file itself is not in the snapshot, but the constructor set is
fully determined by those usages. -/
inductive AgentStatus where
  | PENDING
  | RUNNING
  | COMPLETED
  | FAILED
  | PAUSED
  | STOPPED
  | IDLE
  deriving DecidableEq, Repr

/-- The Agent record, with the fields constructed in
`CreateAgentForm.handleSubmit` and consumed throughout the app
(`id`, `instruction`, `status`, `createdAt`, `model`, `maxSteps`,
`headless`, `useVision`, `generateGif`, `browserSize`) plus the optional
`currentStep` written by the `agent-status-update` handler. -/
structure Agent where
  id : String
  instruction : String
  status : AgentStatus
  createdAt : String
  model : String
  maxSteps : Nat
  headless : Bool
  useVision : Bool
  generateGif : Bool
  browserSize : String
  currentStep : Option Nat
  deriving DecidableEq, Repr

/-! ## Live Update Channel: reconnect backoff (src/unnamed/part_001) -/

/-- `const MAX_RECONNECT_ATTEMPTS = 10` (part_001 line 17). -/
def MAX_RECONNECT_ATTEMPTS : Nat := 10

/-- `const RECONNECT_DELAY = 2000` (part_001 line 18), in milliseconds.
Delays are rationals because the backoff multiplies by powers of 1.5. -/
def RECONNECT_DELAY : ℚ := 2000

/-- Result of one call to `reconnectWithBackoff`: the new value of the
module-level `reconnectAttempts` counter, the delay passed to
`window.setTimeout`, and whether a timeout was scheduled at all. -/
structure ReconnectSchedule where
  attempts : Nat
  delay : ℚ
  scheduled : Bool
  deriving DecidableEq, Repr

/-- `reconnectWithBackoff` (part_001 lines 268–296).  If the attempt
counter is below `MAX_RECONNECT_ATTEMPTS` it is incremented and a timeout
of `RECONNECT_DELAY * Math.min(Math.pow(1.5, reconnectAttempts - 1), 15)`
milliseconds is scheduled (the `Math.pow` argument uses the already
incremented counter); otherwise a fixed 60000 ms timeout is scheduled
(whose callback resets the counter when it later fires).  Both branches
call `window.setTimeout`, so a reconnect is always scheduled. -/
def reconnectWithBackoff (reconnectAttempts : Nat) : ReconnectSchedule :=
  if reconnectAttempts < MAX_RECONNECT_ATTEMPTS then
    { attempts := reconnectAttempts + 1
      delay := RECONNECT_DELAY * min ((3 / 2 : ℚ) ^ ((reconnectAttempts + 1) - 1)) 15
      scheduled := true }
  else
    { attempts := reconnectAttempts
      delay := 60000
      scheduled := true }

/-! ## Live Update Channel: close handling (src/unnamed/part_001) -/

/-- Close codes the `onclose` handler treats as normal/expected:
`event.code !== 1000 && event.code !== 1001` (part_001 line 257). -/
def abnormalCloseCode (code : Nat) : Prop := code ≠ 1000 ∧ code ≠ 1001

instance (code : Nat) : Decidable (abnormalCloseCode code) := by
  unfold abnormalCloseCode; infer_instance

/-- The reconnect decision of `socket.onclose` (part_001 lines 247–260):
`if (!isIntentionalClose && event.code !== 1000 && event.code !== 1001)
reconnectWithBackoff()`. Returns whether a reconnect is scheduled. -/
def socketOnCloseReconnects (isIntentionalClose : Bool) (code : Nat) : Bool :=
  !isIntentionalClose && !(code == 1000) && !(code == 1001)

/-! ## Live Update Channel: subscription control messages -/

/-- A client→server control message `{event, data}` as passed to
`JSON.stringify` before `socket.send`. -/
structure WsMessage where
  event : String
  data : Option String
  deriving DecidableEq, Repr

/-- `subscribeToAgentUpdates` (part_001 lines 365–377): when the socket is
open, sends `{event: 'subscribe-to-agent', data: agentId}`; otherwise no
message is sent. -/
def subscribeToAgentUpdates (agentId : String) (socketOpen : Bool) :
    Option WsMessage :=
  if socketOpen then
    some { event := "subscribe-to-agent", data := some agentId }
  else
    none

/-- `unsubscribeFromAgentUpdates` (part_001 lines 380–392): when the
socket is open, sends `{event: 'unsubscribe-from-agent', data: agentId}`;
otherwise no message is sent. -/
def unsubscribeFromAgentUpdates (agentId : String) (socketOpen : Bool) :
    Option WsMessage :=
  if socketOpen then
    some { event := "unsubscribe-from-agent", data := some agentId }
  else
    none

/-! ## Claims C1, C4, C5 -/

/-- C1: for every reconnect attempt number `a` from 1 to
`MAX_RECONNECT_ATTEMPTS`, the delay scheduled by `reconnectWithBackoff`
(called with the counter at `a - 1`) is
`RECONNECT_DELAY * min(1.5 ^ (a − 1), 15)` and the counter becomes `a`;
once the counter has reached the maximum, every subsequent call schedules
the one fixed 60000 ms delay; every call schedules some reconnect
(retrying never stops), and every scheduled delay is bounded by 60000 ms
(no unbounded growth). -/
theorem reconnect_backoff_spec (a : Nat) :
    (1 ≤ a → a ≤ MAX_RECONNECT_ATTEMPTS →
      (reconnectWithBackoff (a - 1)).delay
          = RECONNECT_DELAY * min ((3 / 2 : ℚ) ^ (a - 1)) 15
        ∧ (reconnectWithBackoff (a - 1)).attempts = a)
    ∧ (MAX_RECONNECT_ATTEMPTS ≤ a →
        (reconnectWithBackoff a).delay = 60000)
    ∧ (reconnectWithBackoff a).scheduled = true
    ∧ (reconnectWithBackoff a).delay ≤ 60000 := by
  refine ⟨?_, ?_, ?_, ?_⟩
  · intro h1 h2
    have hlt : a - 1 < MAX_RECONNECT_ATTEMPTS := by omega
    constructor
    · simp only [reconnectWithBackoff, if_pos hlt]
      norm_num
    · simp only [reconnectWithBackoff, if_pos hlt]
      omega
  · intro h
    have hge : ¬ a < MAX_RECONNECT_ATTEMPTS := by omega
    simp only [reconnectWithBackoff, if_neg hge]
  · by_cases h : a < MAX_RECONNECT_ATTEMPTS <;>
      simp [reconnectWithBackoff, h]
  · by_cases h : a < MAX_RECONNECT_ATTEMPTS
    · simp only [reconnectWithBackoff, if_pos h]
      have hmin : min ((3 / 2 : ℚ) ^ ((a + 1) - 1)) 15 ≤ 15 :=
        min_le_right _ _
      have : RECONNECT_DELAY * min ((3 / 2 : ℚ) ^ ((a + 1) - 1)) 15
          ≤ RECONNECT_DELAY * 15 := by
        have h0 : (0 : ℚ) ≤ RECONNECT_DELAY := by norm_num [RECONNECT_DELAY]
        exact mul_le_mul_of_nonneg_left hmin h0
      calc RECONNECT_DELAY * min ((3 / 2 : ℚ) ^ ((a + 1) - 1)) 15
          ≤ RECONNECT_DELAY * 15 := this
        _ ≤ 60000 := by norm_num [RECONNECT_DELAY]
    · simp only [reconnectWithBackoff, if_neg h]
      norm_num

/-- Witness for C1 at attempt number 10 (the maximum): the tenth backoff
delay hits the 15× cap, giving 30000 ms, and with the counter at the
maximum the next call schedules exactly 60000 ms. -/
theorem reconnect_backoff_spec_witness :
    (reconnectWithBackoff 9).delay = 30000
    ∧ (reconnectWithBackoff 9).attempts = 10
    ∧ (reconnectWithBackoff 10).delay = 60000 := by
  have h := reconnect_backoff_spec 10
  have h1 := h.1 (by norm_num) (by norm_num [MAX_RECONNECT_ATTEMPTS])
  have hcap : min ((3 / 2 : ℚ) ^ (10 - 1)) 15 = 15 := by norm_num
  refine ⟨?_, h1.2, h.2.1 (by norm_num [MAX_RECONNECT_ATTEMPTS])⟩
  have := h1.1
  rw [this, hcap]
  norm_num [RECONNECT_DELAY]

/-- C4: `socket.onclose` schedules a reconnect exactly when the close was
not intentional and the close code is abnormal (neither 1000 nor 1001):
an intentional close never schedules one, and a non-intentional close
with an abnormal code always does. -/
theorem onclose_reconnect_iff (isIntentionalClose : Bool) (code : Nat) :
    socketOnCloseReconnects isIntentionalClose code = true
      ↔ isIntentionalClose = false ∧ abnormalCloseCode code := by
  cases isIntentionalClose <;>
    simp [socketOnCloseReconnects, abnormalCloseCode]

/-- Witness for C4: a non-intentional close with code 1006 (abnormal
closure) schedules a reconnect; an intentional close with the same code
does not. -/
theorem onclose_reconnect_iff_witness :
    socketOnCloseReconnects false 1006 = true
    ∧ socketOnCloseReconnects true 1006 ≠ true := by
  constructor
  · exact (onclose_reconnect_iff false 1006).mpr ⟨rfl, by decide, by decide⟩
  · intro h
    exact absurd ((onclose_reconnect_iff true 1006).mp h).1 (by decide)

/-- C5 counterexample: the unsubscribe control message actually sent over
an open socket carries the event tag `"unsubscribe-from-agent"`, not the
`"unsubscribe-to-agent"` tag the claim states. -/
theorem unsubscribe_event_tag_counterexample :
    (unsubscribeFromAgentUpdates "agent-1" true).map WsMessage.event
        = some "unsubscribe-from-agent"
    ∧ some "unsubscribe-from-agent" ≠ some "unsubscribe-to-agent" := by
  constructor
  · rfl
  · decide

/-- C5 (amended): over an open connection, the subscribe message is
`{event: "subscribe-to-agent", data: agentId}` and the unsubscribe
message is `{event: "unsubscribe-from-agent", data: agentId}`; over a
non-open connection neither helper sends anything. -/
theorem subscription_messages (agentId : String) :
    subscribeToAgentUpdates agentId true
        = some { event := "subscribe-to-agent", data := some agentId }
    ∧ unsubscribeFromAgentUpdates agentId true
        = some { event := "unsubscribe-from-agent", data := some agentId }
    ∧ subscribeToAgentUpdates agentId false = none
    ∧ unsubscribeFromAgentUpdates agentId false = none := by
  exact ⟨rfl, rfl, rfl, rfl⟩

/-! ## Domain Client: `ApiService` (src/README.md, embedded services/api.ts) -/

/-- The uniform response envelope `{status, message?, data?}` with an
operation-specific `data` payload `D`; a missing `message` or `data`
field (JavaScript `undefined`) is `none`. -/
structure Envelope (D : Type) where
  status : String
  message : Option String
  data : Option D
  deriving DecidableEq, Repr

/-- Outcome of one `fetch` call as observed by `ApiService.request`:
either the promise rejects (network failure, with the rejection's
message), or a response arrives with its `ok` flag, numeric status code,
the JSON body if `response.json()` succeeds (`none` models a body that is
not valid JSON), and the raw body text used by the fallback path. -/
inductive FetchOutcome (D : Type) where
  | networkError (msg : String)
  | response (ok : Bool) (code : Nat) (body : Option (Envelope D))
      (rawText : String)
  deriving DecidableEq, Repr

/-- The value held by the local variable `data` in `ApiService.request`
after the parse step: either the parsed JSON envelope, or the synthetic
wrapper `{status: ok ? 'success' : 'error', data: {rawText: text},
message: text}` built when JSON parsing fails. -/
inductive ParsedBody (D : Type) where
  | env (e : Envelope D)
  | wrapped (status : String) (rawText : String) (message : String)
  deriving DecidableEq, Repr

/-- JavaScript `s || d` on strings: the empty string is falsy. -/
def jsStringOr (o : Option String) (d : String) : String :=
  match o with
  | some s => if s = "" then d else s
  | none => d

/-- JavaScript `n || d` on numbers: `0` is falsy (the client only ever
sees non-negative counts here, so `Nat` suffices). -/
def jsNatOr (o : Option Nat) (d : Nat) : Nat :=
  match o with
  | some n => if n = 0 then d else n
  | none => d

/-- `data.message` as read by `request`'s error path. -/
def parsedMessage {D : Type} : ParsedBody D → Option String
  | .env e => e.message
  | .wrapped _ _ m => some m

/-- The message of the `Error` thrown by `request` on a non-OK response:
`data.message || 'An error occurred while making the request'`. -/
def requestFailureMessage {D : Type} (p : ParsedBody D) : String :=
  jsStringOr (parsedMessage p) "An error occurred while making the request"

/-- `ApiService.request` (README lines 142–185): a network failure
re-throws; a body that fails to parse as JSON is replaced by the wrapper
object; a non-OK response throws `Error(data.message || '…')`; an OK
response resolves to the (possibly wrapped) parsed body. -/
def request {D : Type} (f : FetchOutcome D) : Except String (ParsedBody D) :=
  match f with
  | .networkError msg => .error msg
  | .response ok _code body rawText =>
    let data : ParsedBody D :=
      match body with
      | some e => .env e
      | none => .wrapped (if ok then "success" else "error") rawText rawText
    if ok then .ok data else .error (requestFailureMessage data)

/-- The `data` payload of `GET /agents`: the agent array may sit under
either an `agents` or an `items` key, alongside optional pagination
numbers. -/
structure AgentsData where
  agents : Option (List Agent)
  items : Option (List Agent)
  total : Option Nat
  limit : Option Nat
  offset : Option Nat
  deriving DecidableEq, Repr

/-- The optional filter argument of `getAgents`; `status`, `sort` and
`order` only shape the query string and do not affect normalization. -/
structure ListParams where
  limit : Option Nat
  offset : Option Nat
  status : Option AgentStatus
  sort : Option String
  order : Option String
  deriving DecidableEq, Repr

/-- The normalized result `{agents, total, limit, offset}` promised by
`getAgents`. -/
structure AgentsResult where
  agents : List Agent
  total : Nat
  limit : Nat
  offset : Nat
  deriving DecidableEq, Repr

/-- The empty result `getAgents` returns on its `!response.data` branch
and in its `catch` handler:
`{agents: [], total: 0, limit: params?.limit || 10,
offset: params?.offset || 0}`. -/
def emptyAgentsResult (params : ListParams) : AgentsResult :=
  { agents := []
    total := 0
    limit := jsNatOr params.limit 10
    offset := jsNatOr params.offset 0 }

/-- `ApiService.getAgents` (README lines 214–275).  Wraps `request` in a
`try`/`catch` that degrades every failure to the empty result; on
success it reads `response.data` (the parse-failure wrapper carries the
field-less `{rawText}` object), takes the array from `data.agents ||
data.items || []`, and fills `total`/`limit`/`offset` with the
JavaScript `||` defaults of the source. -/
def getAgents (params : ListParams) (f : FetchOutcome AgentsData) :
    AgentsResult :=
  match request f with
  | .error _ => emptyAgentsResult params
  | .ok p =>
    let dataOpt : Option AgentsData :=
      match p with
      | .env e => e.data
      | .wrapped _ _ _ => some ⟨none, none, none, none, none⟩
    match dataOpt with
    | none => emptyAgentsResult params
    | some d =>
      let agentsList : List Agent :=
        match d.agents with
        | some l => l
        | none => d.items.getD []
      { agents := agentsList
        total := jsNatOr d.total agentsList.length
        limit := jsNatOr d.limit (jsNatOr params.limit 10)
        offset := jsNatOr d.offset (jsNatOr params.offset 0) }

/-- The `data` payload `{agent}` of the single-agent endpoints; a missing
`agent` field is `none`. -/
structure AgentData where
  agent : Option Agent
  deriving DecidableEq, Repr

/-- Shared tail of `getAgentById`/`startAgent`/`stopAgent`/`pauseAgent`/
`resumeAgent`: `return response.data.agent`.  Reading `.agent` off an
`undefined` `data` throws a `TypeError`; off the parse-failure wrapper
(whose `data` is `{rawText}`) it yields JavaScript `undefined`, modelled
as `.ok none`. -/
def agentOfResponse (p : ParsedBody AgentData) : Except String (Option Agent) :=
  match p with
  | .env e =>
    match e.data with
    | some d => .ok d.agent
    | none => .error "TypeError: cannot read properties of undefined"
  | .wrapped _ _ _ => .ok none

/-- `ApiService.getAgentById` (README lines 278–281): `request` followed
by `return response.data.agent`. -/
def getAgentById (f : FetchOutcome AgentData) : Except String (Option Agent) :=
  match request f with
  | .error m => .error m
  | .ok p => agentOfResponse p

/-- `ApiService.startAgent` (README lines 342–348): POST to
`/agents/:id/start`, then `return response.data.agent`.  No check of the
envelope's `status` field is performed. -/
def startAgent (f : FetchOutcome AgentData) : Except String (Option Agent) :=
  match request f with
  | .error m => .error m
  | .ok p => agentOfResponse p

/-- `ApiService.stopAgent` (README lines 351–357): identical to
`startAgent` up to the endpoint path. -/
def stopAgent (f : FetchOutcome AgentData) : Except String (Option Agent) :=
  match request f with
  | .error m => .error m
  | .ok p => agentOfResponse p

/-- `ApiService.pauseAgent` (README lines 360–366): identical to
`startAgent` up to the endpoint path. -/
def pauseAgent (f : FetchOutcome AgentData) : Except String (Option Agent) :=
  match request f with
  | .error m => .error m
  | .ok p => agentOfResponse p

/-- `ApiService.resumeAgent` (README lines 369–375): identical to
`startAgent` up to the endpoint path. -/
def resumeAgent (f : FetchOutcome AgentData) : Except String (Option Agent) :=
  match request f with
  | .error m => .error m
  | .ok p => agentOfResponse p

/-- The Result record of a completed run (part_000 `AgentResults`). -/
structure AgentResults where
  summary : String
  outputText : String
  outputHtml : Option String
  createdAt : String
  deriving DecidableEq, Repr

/-- The `data` payload `{results}` of `GET /agents/:id/results`; a
missing or `null` `results` value is `none`. -/
structure ResultsData where
  results : Option AgentResults
  deriving DecidableEq, Repr

/-- `ApiService.getAgentResults` (README lines 407–410): `request`
followed by `return response.data.results`.  Like the other
single-resource operations it has no 404 handling of its own: a 404
response is not OK, so `request` throws. -/
def getAgentResults (f : FetchOutcome ResultsData) :
    Except String (Option AgentResults) :=
  match request f with
  | .error m => .error m
  | .ok (.env e) =>
    match e.data with
    | some d => .ok d.results
    | none => .error "TypeError: cannot read properties of undefined"
  | .ok (.wrapped _ _ _) => .ok none

/-! ## AgentDetails component: `fetchResults` (src/unnamed/part_000) -/

/-- The state effect of the component-level `fetchResults`: either
`setAgentResults` is called with a (possibly null) result, or the
`catch`/`throw` path ends in `setError`. -/
inductive ResultsEffect where
  | setResults (r : Option AgentResults)
  | setError (message : String)
  deriving DecidableEq, Repr

/-- `fetchResults` in `AgentDetails` (part_000 lines 245–281): a missing
stored API URL throws; on a non-OK response a 404 resolves to
`setAgentResults(null)` while any other code throws
`"Failed to fetch results"`; on an OK response the body is parsed (a
parse failure's `SyntaxError` is caught), an envelope whose `status` is
not `"success"` throws `data.message || "Failed to fetch results"`, and
otherwise `setAgentResults(data.data.results)` runs.  Every thrown error
is caught and funnelled into `setError`. -/
def fetchResults (apiUrl : Option String) (f : FetchOutcome ResultsData) :
    ResultsEffect :=
  match apiUrl with
  | none => .setError "API URL not found"
  | some _ =>
    match f with
    | .networkError msg => .setError msg
    | .response ok code body _rawText =>
      if ok then
        match body with
        | none => .setError "SyntaxError: unexpected token"
        | some e =>
          if e.status ≠ "success" then
            .setError (jsStringOr e.message "Failed to fetch results")
          else
            match e.data with
            | some d => .setResults d.results
            | none => .setError "TypeError: cannot read properties of undefined"
      else
        if code == 404 then .setResults none
        else .setError "Failed to fetch results"

/-! ## Claims C2, C7 (getAgents normalization and degrade-to-empty) -/

/-- C2: `getAgents` never throws — it is a total function into
`AgentsResult` — and on a network failure (the fetch promise rejects) or
a parse failure (the body is not valid JSON, whether the response is OK
or not) it returns the result with an empty `agents` array and `total`
equal to zero. -/
theorem getAgents_degrades_to_empty (params : ListParams) :
    (∀ msg : String,
      (getAgents params (.networkError msg)).agents = []
        ∧ (getAgents params (.networkError msg)).total = 0)
    ∧ (∀ (ok : Bool) (code : Nat) (rawText : String),
        (getAgents params (.response ok code none rawText)).agents = []
          ∧ (getAgents params (.response ok code none rawText)).total = 0) := by
  constructor
  · intro msg
    exact ⟨rfl, rfl⟩
  · intro ok code rawText
    cases ok <;> exact ⟨rfl, rfl⟩

/-- C7: whenever the OK response's `data` payload carries the agent array
under the `items` key and no `agents` key, the normalized result of
`getAgents` exposes that very array under its `agents` field. -/
theorem getAgents_items_key (params : ListParams) (st : String)
    (msg : Option String) (its : List Agent)
    (total limit offset : Option Nat) (code : Nat) (rawText : String) :
    (getAgents params
      (.response true code
        (some { status := st, message := msg
                data := some { agents := none, items := some its
                               total := total, limit := limit
                               offset := offset } })
        rawText)).agents = its := by
  rfl

/-! ## Claim C3 (404 on results vs. single-agent lookup) -/

/-- C3 counterexample: on a concrete 404 response carrying a normal error
envelope, `ApiService.getAgentResults` throws (propagates `request`'s
error) rather than resolving to an empty/null result as the claim
states. -/
theorem getAgentResults_404_counterexample :
    getAgentResults
        (.response false 404
          (some { status := "error", message := some "Results not found"
                  data := none })
          "")
      = Except.error "Results not found" := by
  rfl

/-- C3 (amended): on a 404 from the backend, both
`ApiService.getAgentResults` and `ApiService.getAgentById` fail with an
error (their shared `request` helper throws on every non-OK response);
the 404-tolerant behavior the claim describes lives in the AgentDetails
component's `fetchResults`, which resolves a 404 to a null result
without error. -/
theorem results_404_behavior :
    (∀ (body : Option (Envelope ResultsData)) (rawText : String),
      ∃ m, getAgentResults (.response false 404 body rawText)
            = Except.error m)
    ∧ (∀ (url rawText : String) (body : Option (Envelope ResultsData)),
        fetchResults (some url) (.response false 404 body rawText)
          = .setResults none)
    ∧ (∀ (body : Option (Envelope AgentData)) (rawText : String),
        ∃ m, getAgentById (.response false 404 body rawText)
              = Except.error m) := by
  refine ⟨?_, ?_, ?_⟩
  · intro body rawText
    cases body <;> exact ⟨_, rfl⟩
  · intro url rawText body
    rfl
  · intro body rawText
    cases body <;> exact ⟨_, rfl⟩

/-! ## Claim C6 (agent action operations) -/

/-- A concrete agent used by counterexamples. -/
def sampleAgent : Agent :=
  { id := "agent-1", instruction := "Visit example.com and summarize it"
    status := .RUNNING, createdAt := "2025-01-01 00:00:00"
    model := "gpt-4o", maxSteps := 30, headless := false
    useVision := true, generateGif := true, browserSize := "mobile"
    currentStep := some 3 }

/-- C6 counterexample: an OK HTTP response whose envelope has
`status: "error"` (not `"success"`) but still contains `data.agent` makes
`startAgent` resolve successfully with that agent — no `InvalidResponse`
failure occurs, contradicting the claim. -/
theorem startAgent_no_envelope_check_counterexample :
    startAgent
        (.response true 200
          (some { status := "error", message := some "boom"
                  data := some { agent := some sampleAgent } })
          "")
      = Except.ok (some sampleAgent)
    ∧ "error" ≠ "success" := by
  exact ⟨rfl, by decide⟩

/-- C6 (amended): for each of `startAgent`, `stopAgent`, `pauseAgent`
and `resumeAgent`, a non-OK HTTP response makes the operation fail with
an error whose message is the envelope's `message` field (or a default)
— the numeric HTTP status is not attached — while an OK response whose
body parses and carries `data.agent` makes the operation return that
agent regardless of the envelope's `status` field: the envelope status
is never checked, so no `InvalidResponse`-style failure exists in these
operations. -/
theorem agent_actions_behavior :
    (∀ (code : Nat) (body : Option (Envelope AgentData)) (rawText : String),
      ∃ m, (∀ e, body = some e → m = requestFailureMessage (.env e))
        ∧ startAgent (.response false code body rawText) = Except.error m
        ∧ stopAgent (.response false code body rawText) = Except.error m
        ∧ pauseAgent (.response false code body rawText) = Except.error m
        ∧ resumeAgent (.response false code body rawText) = Except.error m)
    ∧ (∀ (code : Nat) (st : String) (msg : Option String) (a : Agent)
        (rawText : String),
        startAgent (.response true code
            (some { status := st, message := msg
                    data := some { agent := some a } }) rawText)
          = Except.ok (some a)
        ∧ stopAgent (.response true code
              (some { status := st, message := msg
                      data := some { agent := some a } }) rawText)
            = Except.ok (some a)
        ∧ pauseAgent (.response true code
              (some { status := st, message := msg
                      data := some { agent := some a } }) rawText)
            = Except.ok (some a)
        ∧ resumeAgent (.response true code
              (some { status := st, message := msg
                      data := some { agent := some a } }) rawText)
            = Except.ok (some a)) := by
  constructor
  · intro code body rawText
    cases body with
    | none =>
      refine ⟨requestFailureMessage (.wrapped "error" rawText rawText),
        ?_, rfl, rfl, rfl, rfl⟩
      intro e he
      cases he
    | some e =>
      refine ⟨requestFailureMessage (.env e), ?_, rfl, rfl, rfl, rfl⟩
      intro e' he'
      cases he'
      rfl
  · intro code st msg a rawText
    exact ⟨rfl, rfl, rfl, rfl⟩

/-! ## View State Store (src/unnamed/part_001) -/

/-- The upsert performed by `handleCreateAgent`'s `setAgents` updater
(part_001 lines 410–423): if an agent with the incoming agent's id
already exists, every such entry is replaced by the incoming agent
(`prevAgents.map`); otherwise the incoming agent is prepended
(`[createdAgent, ...prevAgents]`). -/
def upsert (createdAgent : Agent) (prevAgents : List Agent) : List Agent :=
  if prevAgents.any (fun agent => agent.id == createdAgent.id) then
    prevAgents.map (fun agent =>
      if agent.id == createdAgent.id then createdAgent else agent)
  else
    createdAgent :: prevAgents

/-- A sequence of upserts applied left to right. -/
def applyUpserts (upserts : List Agent) (prevAgents : List Agent) :
    List Agent :=
  upserts.foldl (fun acc a => upsert a acc) prevAgents

/-- The element-wise replacement inside `upsert` never changes an id:
either the entry keeps its own id or it is replaced by an agent with the
very same id. -/
theorem upsert_map_id (a b : Agent) :
    (if b.id == a.id then a else b).id = b.id := by
  by_cases h : b.id == a.id
  · simp only [if_pos h]
    exact (eq_of_beq h).symm
  · simp only [if_neg h]

/-- The ids of `upsert a l`: unchanged in the replace branch, `a.id`
prepended in the prepend branch. -/
theorem map_id_upsert (a : Agent) (l : List Agent) :
    (upsert a l).map Agent.id
      = if l.any (fun b => b.id == a.id) then l.map Agent.id
        else a.id :: l.map Agent.id := by
  by_cases h : l.any (fun b => b.id == a.id)
  · simp only [upsert, if_pos h, List.map_map]
    refine List.map_congr_left ?_
    intro b _
    exact upsert_map_id a b
  · simp only [upsert, if_neg h, List.map_cons]

/-- `upsert` preserves the at-most-one-entry-per-id invariant. -/
theorem upsert_nodup (a : Agent) (l : List Agent)
    (h : (l.map Agent.id).Nodup) : ((upsert a l).map Agent.id).Nodup := by
  rw [map_id_upsert]
  by_cases hany : l.any (fun b => b.id == a.id)
  · simpa [hany] using h
  · rw [if_neg hany]
    refine List.Nodup.cons ?_ h
    intro hmem
    obtain ⟨b, hb, hid⟩ := List.mem_map.mp hmem
    exact hany (List.any_eq_true.mpr ⟨b, hb, by simp [hid]⟩)

/-- After `upsert a l`, looking up `a.id` finds exactly `a`. -/
theorem find_upsert_self (a : Agent) (l : List Agent) :
    (upsert a l).find? (fun b => b.id == a.id) = some a := by
  by_cases h : l.any (fun b => b.id == a.id)
  · simp only [upsert, if_pos h]
    rw [List.any_eq_true] at h
    obtain ⟨c, hc, hcid⟩ := h
    induction l with
    | nil => cases hc
    | cons x xs ih =>
      by_cases hx : x.id == a.id
      · simp only [List.map_cons, if_pos hx]
        exact List.find?_cons_of_pos _ (by simp)
      · simp only [List.map_cons, if_neg hx]
        rw [List.find?_cons_of_neg _ (by simpa using hx)]
        rcases List.mem_cons.mp hc with hceq | hcmem
        · subst hceq; exact absurd hcid hx
        · exact ih hcmem
  · simp only [upsert, if_neg h]
    exact List.find?_cons_of_pos _ (by simp)

/-- Replacing the entries with id `a.id` does not disturb lookups of any
other id. -/
theorem find_map_replace (a : Agent) (i : String) (h : i ≠ a.id)
    (l : List Agent) :
    (l.map (fun b => if b.id == a.id then a else b)).find?
        (fun b => b.id == i)
      = l.find? (fun b => b.id == i) := by
  induction l with
  | nil => rfl
  | cons x xs ih =>
    by_cases hx : x.id == a.id
    · have hxa : x.id = a.id := eq_of_beq hx
      simp only [List.map_cons, if_pos hx]
      rw [List.find?_cons_of_neg _ (by simp [Ne.symm h]),
        List.find?_cons_of_neg _ (by simp [hxa, Ne.symm h])]
      exact ih
    · simp only [List.map_cons, if_neg hx]
      by_cases hxi : x.id == i
      · rw [List.find?_cons_of_pos _ (by simpa using hxi),
          List.find?_cons_of_pos _ (by simpa using hxi)]
      · rw [List.find?_cons_of_neg _ (by simpa using hxi),
          List.find?_cons_of_neg _ (by simpa using hxi)]
        exact ih

/-- `upsert a l` does not disturb lookups of any other id. -/
theorem find_upsert_other (a : Agent) (l : List Agent) (i : String)
    (h : i ≠ a.id) :
    (upsert a l).find? (fun b => b.id == i)
      = l.find? (fun b => b.id == i) := by
  by_cases hany : l.any (fun b => b.id == a.id)
  · simp only [upsert, if_pos hany]
    exact find_map_replace a i h l
  · simp only [upsert, if_neg hany]
    exact List.find?_cons_of_neg _ (by simp [Ne.symm h])

/-- A sequence of upserts none of which touches id `i` leaves lookups of
`i` unchanged. -/
theorem applyUpserts_find_untouched (us l : List Agent) (i : String)
    (h : ∀ b ∈ us, b.id ≠ i) :
    (applyUpserts us l).find? (fun b => b.id == i)
      = l.find? (fun b => b.id == i) := by
  induction us generalizing l with
  | nil => rfl
  | cons a us ih =>
    have ha : i ≠ a.id := fun hia =>
      h a (List.mem_cons_self a us) hia.symm
    calc (applyUpserts (a :: us) l).find? (fun b => b.id == i)
        = (applyUpserts us (upsert a l)).find? (fun b => b.id == i) := rfl
      _ = (upsert a l).find? (fun b => b.id == i) :=
          ih (upsert a l) (fun b hb => h b (List.mem_cons_of_mem a hb))
      _ = l.find? (fun b => b.id == i) := find_upsert_other a l i ha

/-- C9: starting from a collection with at most one entry per id, any
sequence of upserts (each replacing by id if present, else prepending)
keeps exactly one entry per id, and the entry found for an id that some
upsert carried is exactly the most recent upsert with that id. -/
theorem upsert_store_invariant (us l : List Agent)
    (h : (l.map Agent.id).Nodup) :
    ((applyUpserts us l).map Agent.id).Nodup
    ∧ ∀ (i : String) (a : Agent),
        us.reverse.find? (fun b => b.id == i) = some a →
        (applyUpserts us l).find? (fun b => b.id == i) = some a := by
  induction us generalizing l with
  | nil =>
    refine ⟨h, ?_⟩
    intro i a ha
    cases ha
  | cons c us ih =>
    have hstep : (applyUpserts (c :: us) l) = applyUpserts us (upsert c l) :=
      rfl
    have hnodup' : ((upsert c l).map Agent.id).Nodup := upsert_nodup c l h
    refine ⟨hstep ▸ (ih (upsert c l) hnodup').1, ?_⟩
    intro i a ha
    rw [List.reverse_cons, List.find?_append] at ha
    rw [hstep]
    cases hrev : us.reverse.find? (fun b => b.id == i) with
    | some b =>
      rw [hrev] at ha
      have hba : some b = some a := by simpa using ha
      exact hba ▸ (ih (upsert c l) hnodup').2 i b hrev
    | none =>
      rw [hrev] at ha
      simp only [Option.none_or] at ha
      by_cases hc : (c.id == i)
      · have h1 : List.find? (fun b => b.id == i) [c] = some c :=
          List.find?_cons_of_pos _ hc
        rw [h1] at ha
        cases ha
        have huntouched : ∀ b ∈ us, b.id ≠ i := by
          intro b hb hbi
          have := List.find?_eq_none.mp hrev b (List.mem_reverse.mpr hb)
          simp [hbi] at this
        rw [applyUpserts_find_untouched us (upsert c l) i huntouched]
        have hci : c.id = i := eq_of_beq hc
        rw [← hci]
        exact find_upsert_self c l
      · have h1 : List.find? (fun b => b.id == i) [c] = none :=
          List.find?_cons_of_neg _ (by simpa using hc)
        rw [h1] at ha
        cases ha

/-- Two upserts carrying the same id, used as the C9 witness. -/
def agentV1 : Agent :=
  { id := "agent-9", instruction := "first version"
    status := .PENDING, createdAt := "2025-01-01 00:00:00"
    model := "gpt-4o", maxSteps := 30, headless := false
    useVision := true, generateGif := true, browserSize := "mobile"
    currentStep := none }

/-- The later upsert with the same id as `agentV1`. -/
def agentV2 : Agent :=
  { agentV1 with instruction := "second version", status := .RUNNING }

/-- Witness for C9: upserting `agentV1` then `agentV2` (same id) into the
empty store leaves ids without duplicates and the lookup of that id
returns the most recent upsert, `agentV2`. -/
theorem upsert_store_invariant_witness :
    ((applyUpserts [agentV1, agentV2] []).map Agent.id).Nodup
    ∧ (applyUpserts [agentV1, agentV2] []).find?
        (fun b => b.id == "agent-9") = some agentV2 := by
  have h := upsert_store_invariant [agentV1, agentV2] [] (by simp)
  exact ⟨h.1, h.2 "agent-9" agentV2 (by decide)⟩

/-! ## Agent status-update event handler (src/unnamed/part_001) -/

/-- The per-element update inside the `agent-status-update` branch of
`socket.onmessage` (part_001 lines 225–233):
`agent.id === data.agentId ? {...agent, status: data.status,
currentStep: data.currentStep} : agent`. -/
def agentStatusUpdate (agentId : String) (status : AgentStatus)
    (currentStep : Option Nat) (agent : Agent) : Agent :=
  if agent.id == agentId then
    { agent with status := status, currentStep := currentStep }
  else
    agent

/-- The full `setAgents(prevAgents => prevAgents.map(...))` updater run
on an `agent-status-update` event. -/
def handleAgentStatusUpdate (agentId : String) (status : AgentStatus)
    (currentStep : Option Nat) (agents : List Agent) : List Agent :=
  agents.map (agentStatusUpdate agentId status currentStep)

/-- C10: the status-update handler preserves the collection's length and
order (element `k` of the output is element `k` of the input, updated
in place); the update touches only the `status` and `currentStep` fields
(all other fields of every agent are unchanged); agents whose id differs
from the event's `agentId` are untouched; and an event whose `agentId`
matches no agent leaves the collection identical. -/
theorem status_update_frame (agentId : String) (st : AgentStatus)
    (cs : Option Nat) (l : List Agent) :
    (handleAgentStatusUpdate agentId st cs l).length = l.length
    ∧ (∀ k : Nat, (handleAgentStatusUpdate agentId st cs l)[k]?
        = (l[k]?).map (agentStatusUpdate agentId st cs))
    ∧ (∀ a : Agent,
        (agentStatusUpdate agentId st cs a).id = a.id
        ∧ (agentStatusUpdate agentId st cs a).instruction = a.instruction
        ∧ (agentStatusUpdate agentId st cs a).createdAt = a.createdAt
        ∧ (agentStatusUpdate agentId st cs a).model = a.model
        ∧ (agentStatusUpdate agentId st cs a).maxSteps = a.maxSteps
        ∧ (agentStatusUpdate agentId st cs a).headless = a.headless
        ∧ (agentStatusUpdate agentId st cs a).useVision = a.useVision
        ∧ (agentStatusUpdate agentId st cs a).generateGif = a.generateGif
        ∧ (agentStatusUpdate agentId st cs a).browserSize = a.browserSize)
    ∧ (∀ a : Agent, a.id = agentId →
        (agentStatusUpdate agentId st cs a).status = st
        ∧ (agentStatusUpdate agentId st cs a).currentStep = cs)
    ∧ (∀ a : Agent, a.id ≠ agentId → agentStatusUpdate agentId st cs a = a)
    ∧ ((∀ a ∈ l, a.id ≠ agentId) →
        handleAgentStatusUpdate agentId st cs l = l) := by
  refine ⟨List.length_map _ _, ?_, ?_, ?_, ?_, ?_⟩
  · intro k
    exact List.getElem?_map _ l k
  · intro a
    by_cases ha : a.id == agentId <;>
      simp [agentStatusUpdate, ha]
  · intro a ha
    simp [agentStatusUpdate, ha]
  · intro a ha
    simp [agentStatusUpdate, ha]
  · intro hnone
    have : l.map (agentStatusUpdate agentId st cs) = l.map id := by
      refine List.map_congr_left ?_
      intro a ha
      simp [agentStatusUpdate, hnone a ha]
    simp [handleAgentStatusUpdate, this]

/-- The bystander agent for the C10 witness. -/
def bystanderAgent : Agent :=
  { id := "agent-2", instruction := "other task"
    status := .IDLE, createdAt := "2025-01-02 00:00:00"
    model := "gpt-4", maxSteps := 10, headless := true
    useVision := false, generateGif := false, browserSize := "pc"
    currentStep := none }

/-- Witness for C10: a status-update event for `agent-1` leaves the
collection `[bystanderAgent]` (which holds only `agent-2`) identical,
and applied to an agent whose id does match, it sets exactly the new
status and step while keeping the instruction. -/
theorem status_update_frame_witness :
    handleAgentStatusUpdate "agent-1" .COMPLETED (some 7) [bystanderAgent]
        = [bystanderAgent]
    ∧ (agentStatusUpdate "agent-1" .COMPLETED (some 7) sampleAgent).status
        = .COMPLETED
    ∧ (agentStatusUpdate "agent-1" .COMPLETED (some 7)
        sampleAgent).instruction = sampleAgent.instruction := by
  have h := status_update_frame "agent-1" .COMPLETED (some 7) [bystanderAgent]
  have h2 := status_update_frame "agent-1" .COMPLETED (some 7) [sampleAgent]
  refine ⟨?_, ?_, ?_⟩
  · refine h.2.2.2.2.2 ?_
    intro a ha
    have : a = bystanderAgent := by simpa using ha
    rw [this]
    decide
  · exact (h2.2.2.2.1 sampleAgent (by decide)).1
  · exact (h2.2.2.1 sampleAgent).2.1

/-! ## Create-agent form (src/src/components/CreateAgentForm.tsx) -/

/-- JavaScript `String.prototype.trim()`: strip whitespace from both
ends of the string. -/
def jsTrim (s : String) : String :=
  ⟨((s.data.dropWhile Char.isWhitespace).reverse.dropWhile
      Char.isWhitespace).reverse⟩

/-- The non-id, non-status, non-timestamp configuration the form holds
(`model`, `maxSteps`, `headless`, `useVision`, `generateGif`,
`browserSize`). -/
structure CreateAgentConfig where
  model : String
  maxSteps : Nat
  headless : Bool
  useVision : Bool
  generateGif : Bool
  browserSize : String
  deriving DecidableEq, Repr

/-- `CreateAgentForm.handleSubmit` (CreateAgentForm.tsx lines 29–48):
`if (instruction.trim().length < 10) return;` aborts before
`onCreateAgent` is ever invoked — so no network call happens; otherwise
the new agent (id from `crypto.randomUUID()`, status PENDING, creation
timestamp from `new Date()`, both passed in here as parameters since
they are environment-supplied) is handed to `onCreateAgent`, which
issues the create API call.  `none` therefore means "no create call
issued". -/
def handleSubmit (newId createdAt instruction : String)
    (cfg : CreateAgentConfig) : Option Agent :=
  if (jsTrim instruction).length < 10 then
    none
  else
    some { id := newId, instruction := instruction
           status := .PENDING, createdAt := createdAt
           model := cfg.model, maxSteps := cfg.maxSteps
           headless := cfg.headless, useVision := cfg.useVision
           generateGif := cfg.generateGif, browserSize := cfg.browserSize
           currentStep := none }

/-- C8: an instruction whose trimmed length is below 10 makes
`handleSubmit` return without invoking `onCreateAgent` (no create call,
hence no network request); a trimmed length of at least 10 always issues
the create call; and `handleCreateAgent`'s merge of the backend-returned
agent (the `upsert`) puts that agent at the head of the list whenever
its id is not already present. -/
theorem create_agent_flow :
    (∀ (newId createdAt instruction : String) (cfg : CreateAgentConfig),
      (jsTrim instruction).length < 10 →
      handleSubmit newId createdAt instruction cfg = none)
    ∧ (∀ (newId createdAt instruction : String) (cfg : CreateAgentConfig),
        10 ≤ (jsTrim instruction).length →
        (handleSubmit newId createdAt instruction cfg).isSome = true)
    ∧ (∀ (created : Agent) (prev : List Agent),
        (∀ a ∈ prev, a.id ≠ created.id) →
        (upsert created prev).head? = some created) := by
  refine ⟨?_, ?_, ?_⟩
  · intro newId createdAt instruction cfg h
    simp [handleSubmit, h]
  · intro newId createdAt instruction cfg h
    simp [handleSubmit, Nat.not_lt.mpr h]
  · intro created prev h
    have hany : ¬ (prev.any fun agent => agent.id == created.id) = true := by
      intro hc
      obtain ⟨b, hb, hbid⟩ := List.any_eq_true.mp hc
      exact h b hb (eq_of_beq hbid)
    simp [upsert, hany]

/-- The agent the backend returns in the C8 witness scenario. -/
def createdRustAgent : Agent :=
  { id := "agent-rust", instruction :=
      "Search GitHub for trending Rust repos and list the top 5"
    status := .PENDING, createdAt := "2025-01-03 00:00:00"
    model := "gpt-4o", maxSteps := 30, headless := false
    useVision := true, generateGif := true, browserSize := "mobile"
    currentStep := none }

/-- The form's default configuration (CreateAgentForm.tsx lines 12–17). -/
def defaultFormConfig : CreateAgentConfig :=
  { model := "gpt-4o", maxSteps := 30, headless := false
    useVision := true, generateGif := true, browserSize := "mobile" }

/-- Witness for C8: the 9-character instruction `"Too short"` is rejected
before any create call; the spec's example instruction issues a create
call; and the backend's returned agent lands at the head of the (here
empty) agents list. -/
theorem create_agent_flow_witness :
    handleSubmit "uuid-1" "2025-01-03 00:00:00" "Too short"
        defaultFormConfig = none
    ∧ (handleSubmit "uuid-1" "2025-01-03 00:00:00"
        "Search GitHub for trending Rust repos and list the top 5"
        defaultFormConfig).isSome = true
    ∧ (upsert createdRustAgent []).head? = some createdRustAgent := by
  refine ⟨?_, ?_, ?_⟩
  · exact create_agent_flow.1 "uuid-1" "2025-01-03 00:00:00" "Too short"
      defaultFormConfig (by decide)
  · exact create_agent_flow.2.1 "uuid-1" "2025-01-03 00:00:00"
      "Search GitHub for trending Rust repos and list the top 5"
      defaultFormConfig (by decide)
  · exact create_agent_flow.2.2 createdRustAgent [] (by simp)
